import Mathlib

/-!
Verification development for the `actix-json-gen` repository: a shallow
embedding, in Lean 4, of the parts of the source that the spec's claims are
about, together with theorems settling each claim.

Conventions of the embedding:
* Byte buffers (`Vec<u8>`, `BytesMut`) are `List Nat`, one `Nat` per byte.
* Strings drawn from the data pools are byte lists; the pools themselves
  (`DataPools`, filled by the external `fake` crate) are parameters.
* The ChaCha8 RNG and the floating-point formatters (`dtoa`, `f32::to_string`)
  are external collaborators: a record's random draws are abstracted as a
  `RecordDraws` value (the categorical index, the rendered revenue strings and
  the employees count), exactly the data the source reads off the RNG per
  record.  Machine-integer wrap-around (`u64`/`u32`) is not modelled; every
  concrete input used below stays far below those bounds.
* `itoa::Buffer::format` / `u32::to_string` on a `u32` is the plain decimal
  rendering, embedded as `decimalBytes`.
-/

/-- ASCII bytes of a Lean string literal, used to transcribe the source's
byte-string literals (`b"..."`). -/
def strBytes (s : String) : List Nat :=
  s.toList.map Char.toNat

/-- Decimal rendering of a natural number as ASCII bytes: the embedding of
`itoa::Buffer::format` and `to_string` on unsigned integers. -/
def decimalBytes (n : Nat) : List Nat :=
  (Nat.toDigits 10 n).map Char.toNat

/-- `slice::chunks (n+1)`: the list split into runs of `n+1` elements, the last
run possibly shorter, and no run for the empty list. -/
def chunksGo (n : Nat) (cur : List Nat) : List Nat → List (List Nat)
  | [] => if cur.isEmpty then [] else [cur.reverse]
  | b :: rest =>
    if cur.length + 1 = n then ((b :: cur).reverse) :: chunksGo n [] rest
    else chunksGo n (b :: cur) rest

/-- `bytes.chunks n` of the Rust standard library (for `n ≥ 1`). -/
def chunksOf (n : Nat) (l : List Nat) : List (List Nat) :=
  chunksGo n [] l

theorem chunksGo_flatten (n : Nat) :
    ∀ (l cur : List Nat), (chunksGo n cur l).flatten = cur.reverse ++ l := by
  intro l
  induction l with
  | nil =>
    intro cur
    by_cases h : cur.isEmpty
    · simp [chunksGo, h, List.isEmpty_iff.mp h]
    · simp [chunksGo, h]
  | cons b rest ih =>
    intro cur
    by_cases h : cur.length + 1 = n
    · simp [chunksGo, h, ih]
    · simp [chunksGo, h, ih]

theorem chunksOf_flatten (n : Nat) (l : List Nat) :
    (chunksOf n l).flatten = l := by
  simp [chunksOf, chunksGo_flatten]

/-- The number of bytes (32) each SIMD copy in the source moves at once
(`BYTE_COUNT` in `processing.rs`). -/
def BYTE_COUNT : Nat := 32

/-- The chunked copy loop the source runs over a string's bytes when it is not
escaping (`bytes.chunks(BYTE_COUNT)`, each full chunk moved through
`u8x32::from_slice(..).to_array()`, the tail verbatim).  Both branches copy the
chunk unchanged, so the loop is an identity copy, chunk by chunk. -/
def simdCopy (l : List Nat) : List Nat :=
  (chunksOf BYTE_COUNT l).flatMap
    (fun c => if c.length = BYTE_COUNT then c else c)

@[simp]
theorem simdCopy_eq (l : List Nat) : simdCopy l = l := by
  have h : (fun c : List Nat => if c.length = BYTE_COUNT then c else c)
      = fun c : List Nat => c := by
    funext c
    exact ite_self c
  rw [simdCopy, h]
  rw [show ((chunksOf BYTE_COUNT l).flatMap fun c => c)
      = (chunksOf BYTE_COUNT l).flatten by simp [List.flatMap_def]]
  exact chunksOf_flatten BYTE_COUNT l

/-! ## Data model (`processing.rs`) -/

/-- `DataPools` of `processing.rs` (and `main.rs`): five lookup tables of
strings.  The tables are filled by the external `fake` crate at startup
(`POOL_SIZE = 1000` name/industry/city/state entries, 50 countries), so the
embedding keeps them as parameters. -/
structure DataPools where
  names : List (List Nat)
  industries : List (List Nat)
  cities : List (List Nat)
  states : List (List Nat)
  countries : List (List Nat)

/-- What the source reads off the ChaCha8 RNG (and the float formatters) for
one record: `gen_range(0..100)` for the shared categorical index,
`gen_range(100000.0..100000000.0)` rendered by `dtoa` (JSON) and by
`f32::to_string` (CSV and `main.rs`), `gen_range(10..10000)` employees, and
`gen_range(0..5)` for the country index. -/
structure RecordDraws where
  nameIdx : Nat
  revenueDtoa : List Nat
  revenueDisplay : List Nat
  employees : Nat
  countryIdx : Nat

/-- `BusinessLocationRef` of `processing.rs`: the record handed to the encoder.
Note that the struct has NO `id` field; the two revenue byte strings stand for
the two renderings of the one `revenue: f32`. -/
structure BusinessLocationRef where
  name : List Nat
  industry : List Nat
  revenueDtoa : List Nat
  revenueDisplay : List Nat
  employees : Nat
  city : List Nat
  state : List Nat
  country : List Nat

/-- The record construction inside `StreamGenerator::generate_chunk` (and
`generate_kickoff_chunk`, and `main.rs::generate_chunk`): name, industry, city
and state all use the one categorical draw, the country its own draw, and every
string is passed through verbatim — no comma stripping or other sanitising. -/
def mkLocationRef (pools : DataPools) (d : RecordDraws) : BusinessLocationRef :=
  { name := pools.names.getD d.nameIdx []
    industry := pools.industries.getD d.nameIdx []
    revenueDtoa := d.revenueDtoa
    revenueDisplay := d.revenueDisplay
    employees := d.employees
    city := pools.cities.getD d.nameIdx []
    state := pools.states.getD d.nameIdx []
    country := pools.countries.getD d.countryIdx [] }

/-! ## `JsonPatterns::new` (`processing.rs`)

The constructor writes each key into a zero-filled 64-byte scratch array and
keeps the first 32 bytes, so every stored pattern is the meaningful bytes
padded with NUL bytes up to length 32; `prefix_len` is set to the constant 32,
so the encoder always emits the whole padded pattern.  The pretty separator and
ending (`",\n    "`, `"\n  }"`) are computed and then dropped: the struct only
stores `separator_compact` and `ending_compact`. -/

/-- A 32-byte pattern: the given bytes padded with NULs to length 32. -/
def pad32 (l : List Nat) : List Nat :=
  l ++ List.replicate (32 - l.length) 0

/-- `unquoted_field_patterns[0]`: `"id": ` NUL-padded to 32 bytes. -/
def idKeyPat : List Nat := pad32 (strBytes "\"id\": ")

/-- `unquoted_field_patterns[1]`: `"revenue": ` NUL-padded to 32 bytes. -/
def revenueKeyPat : List Nat := pad32 (strBytes "\"revenue\": ")

/-- `unquoted_field_patterns[2]`: `"employees": ` NUL-padded to 32 bytes.
Built by `JsonPatterns::new` but never read by the encoder, which only has two
numeric values to write. -/
def employeesKeyPat : List Nat := pad32 (strBytes "\"employees\": ")

/-- `quoted_field_patterns[0].prefix`: `"name": "` NUL-padded to 32 bytes. -/
def nameKeyPat : List Nat := pad32 (strBytes "\"name\": \"")

/-- `quoted_field_patterns[1].prefix`. -/
def industryKeyPat : List Nat := pad32 (strBytes "\"industry\": \"")

/-- `quoted_field_patterns[2].prefix`. -/
def cityKeyPat : List Nat := pad32 (strBytes "\"city\": \"")

/-- `quoted_field_patterns[3].prefix`. -/
def stateKeyPat : List Nat := pad32 (strBytes "\"state\": \"")

/-- `quoted_field_patterns[4].prefix`. -/
def countryKeyPat : List Nat := pad32 (strBytes "\"country\": \"")

/-- Every `quoted_field_patterns[i].suffix`: a closing quote NUL-padded to 32
bytes. -/
def quotedSuffixPat : List Nat := pad32 (strBytes "\"")

/-- `separator_compact`: a comma NUL-padded to 32 bytes. -/
def sepCompactPat : List Nat := pad32 (strBytes ",")

/-- `ending_compact`: a closing brace NUL-padded to 32 bytes. -/
def endCompactPat : List Nat := pad32 (strBytes "\x7d")

/-! ## `StreamGenerator::write_location_json_simd` (`processing.rs`) -/

/-- The escape predicate of the SIMD masks: a double quote, a backslash or a
newline byte. -/
def isEscByte (b : Nat) : Bool :=
  b == 34 || b == 92 || b == 10

/-- The byte-at-a-time fallback the source runs over a chunk whose SIMD mask
hit: each escapable byte is preceded by a backslash. -/
def escapeBytes (l : List Nat) : List Nat :=
  l.flatMap (fun b => if isEscByte b then [92, b] else [b])

/-- The escaping copy of the parallel string path (`chunks(WIDE_BYTE_COUNT)`):
a full 64-byte chunk is escaped bytewise when its mask hits, else copied; a
chunk of 32..63 bytes has only its first 32 bytes inspected and possibly
escaped, the tail copied verbatim; a chunk under 32 bytes is copied verbatim. -/
def escapeSimd (l : List Nat) : List Nat :=
  (chunksOf 64 l).flatMap (fun c =>
    if c.length = 64 then
      (if c.any isEscByte then escapeBytes c else c)
    else if BYTE_COUNT ≤ c.length then
      ((if (c.take BYTE_COUNT).any isEscByte
        then escapeBytes (c.take BYTE_COUNT)
        else c.take BYTE_COUNT) ++ c.drop BYTE_COUNT)
    else c)

/-- How the parallel string path appends one field's bytes to the output
buffer: separator first, then — when the buffer is not 64-byte aligned — the
field bytes split at the "padding" point and appended in two slices (which
concatenate back to the same bytes). -/
def padAppend (acc sep out : List Nat) : List Nat :=
  if acc.length % 64 = 0 then acc ++ sep ++ out
  else
    acc ++ sep ++
      (out.take (64 - acc.length % 64) ++ out.drop (64 - acc.length % 64))

/-- `PARALLEL_THRESHOLD` of `write_location_json_simd`. -/
def PARALLEL_THRESHOLD : Nat := 1024

/-- `StreamGenerator::write_location_json_simd`.  The `pretty` argument is the
`StreamGenerator.pretty` field; the source destructures
`(separator, ending) = (json_patterns.separator_compact,
json_patterns.ending_compact)` without consulting it.  The numeric loop runs
over `[revenue_str, employees_str]` zipped with `unquoted_field_patterns` by
index, so the revenue string lands after the `"id"` pattern and the employees
string after the `"revenue"` pattern; the parallel and sequential numeric
branches append the same bytes.  The string loop runs over the five string
values zipped with `quoted_field_patterns`; the sequential branch (total
string length ≤ 1024) copies the value bytes verbatim via the chunked SIMD
copy, with no escaping. -/
def write_location_json_simd (pretty : Bool) (loc : BusinessLocationRef) :
    List Nat :=
  let revenueStr := loc.revenueDtoa
  let employeesStr := decimalBytes loc.employees
  let numericSeg :=
    (idKeyPat ++ revenueStr) ++ (sepCompactPat ++ revenueKeyPat ++ employeesStr)
  let numericPart :=
    if PARALLEL_THRESHOLD < revenueStr.length + employeesStr.length
    then numericSeg else numericSeg
  let base := 123 :: numericPart
  let totalStringLen := loc.name.length + loc.industry.length +
    loc.city.length + loc.state.length + loc.country.length
  if PARALLEL_THRESHOLD < totalStringLen then
    (padAppend
      (padAppend
        (padAppend
          (padAppend
            (padAppend base sepCompactPat
              (nameKeyPat ++ escapeSimd loc.name ++ quotedSuffixPat))
            sepCompactPat
            (industryKeyPat ++ escapeSimd loc.industry ++ quotedSuffixPat))
          sepCompactPat
          (cityKeyPat ++ escapeSimd loc.city ++ quotedSuffixPat))
        sepCompactPat
        (stateKeyPat ++ escapeSimd loc.state ++ quotedSuffixPat))
      sepCompactPat
      (countryKeyPat ++ escapeSimd loc.country ++ quotedSuffixPat))
    ++ endCompactPat
  else
    base
    ++ (sepCompactPat ++ nameKeyPat ++ simdCopy loc.name ++ quotedSuffixPat)
    ++ (sepCompactPat ++ industryKeyPat ++ simdCopy loc.industry
        ++ quotedSuffixPat)
    ++ (sepCompactPat ++ cityKeyPat ++ simdCopy loc.city ++ quotedSuffixPat)
    ++ (sepCompactPat ++ stateKeyPat ++ simdCopy loc.state ++ quotedSuffixPat)
    ++ (sepCompactPat ++ countryKeyPat ++ simdCopy loc.country
        ++ quotedSuffixPat)
    ++ endCompactPat

/-! ## `StreamGenerator::write_location_csv_simd` (`processing.rs`) -/

/-- `StreamGenerator::write_location_csv_simd`: a leading comma, then the seven
fields name, industry, revenue (`f32::to_string`), employees, city, state,
country — there is no id — joined by commas through the chunked SIMD copy,
then one newline. -/
def write_location_csv_simd (loc : BusinessLocationRef) : List Nat :=
  strBytes ","
  ++ simdCopy loc.name ++ strBytes ","
  ++ simdCopy loc.industry ++ strBytes ","
  ++ simdCopy loc.revenueDisplay ++ strBytes ","
  ++ simdCopy (decimalBytes loc.employees) ++ strBytes ","
  ++ simdCopy loc.city ++ strBytes ","
  ++ simdCopy loc.state ++ strBytes ","
  ++ simdCopy loc.country
  ++ strBytes "\n"

/-! ## Size parsing (`util.rs::parse_size`, `main.rs::parse_size`) -/

/-- `str::to_lowercase` on the ASCII inputs in scope. -/
def toLowerStr (s : List Char) : List Char :=
  s.map Char.toLower

/-- The split both parsers perform: the index of the first non-digit character
splits the string into the number part and the unit part; a string of digits
only (or the empty string) has no such index and is rejected upstream. -/
def splitSizeStr (s : List Char) : Option (List Char × List Char) :=
  (s.findIdx? (fun c => !c.isDigit)).map (fun i => (s.take i, s.drop i))

/-- `str::parse::<u64>` on the digit-only number part: the empty string fails,
a digit string is read as decimal.  (The machine-width overflow rejection of
the Rust parse is not modelled; the inputs used stay small.) -/
def parseNumberStr (l : List Char) : Option Nat :=
  if l.isEmpty then none
  else if l.all Char.isDigit then
    some (l.foldl (fun acc c => 10 * acc + (c.toNat - 48)) 0)
  else none

/-- `SizeInfo` of `util.rs`. -/
structure SizeInfo where
  total_size : Nat
  multiplier : Nat
  unit : List Char
deriving DecidableEq

/-- `util.rs::parse_size`: lowercase, split at the first non-digit, parse the
number, then map the unit — `b` to 8 (sic), `kb`..`tb` to the powers of
1024. -/
def util_parse_size (s0 : List Char) : Except String SizeInfo :=
  let s := toLowerStr s0
  match splitSizeStr s with
  | none => .error "Invalid format"
  | some (numberStr, unit) =>
    match parseNumberStr numberStr with
    | none => .error "Invalid number"
    | some number =>
      if unit = "b".toList then
        .ok ⟨number * 8, 8, unit⟩
      else if unit = "kb".toList then
        .ok ⟨number * 1024, 1024, unit⟩
      else if unit = "mb".toList then
        .ok ⟨number * (1024 ^ 2), 1024 ^ 2, unit⟩
      else if unit = "gb".toList then
        .ok ⟨number * (1024 ^ 3), 1024 ^ 3, unit⟩
      else if unit = "tb".toList then
        .ok ⟨number * (1024 ^ 4), 1024 ^ 4, unit⟩
      else .error "Invalid unit"

/-- `main.rs::parse_size` (the same function in `main3.rs`): as above but `b`
maps to 1 and only `b`, `kb`, `mb`, `gb` are accepted — there is no `tb`
arm. -/
def main_parse_size (s0 : List Char) : Except String Nat :=
  let s := toLowerStr s0
  match splitSizeStr s with
  | none => .error "Invalid format"
  | some (numberStr, unit) =>
    match parseNumberStr numberStr with
    | none => .error "Invalid number"
    | some number =>
      if unit = "b".toList then .ok (number * 1)
      else if unit = "kb".toList then .ok (number * 1024)
      else if unit = "mb".toList then .ok (number * (1024 * 1024))
      else if unit = "gb".toList then .ok (number * (1024 * 1024 * 1024))
      else .error "Invalid unit"

/-- `util.rs::get_size_info`: an absent size parameter is an error, a present
one is handed to `util_parse_size` (the `anyhow` context wrapping is modelled
as passing the error through). -/
def get_size_info (size : Option (List Char)) : Except String SizeInfo :=
  match size with
  | some s => util_parse_size s
  | none => .error "Size parameter is missing"

/-- `BYTE_SIZE` of `main.rs::generate_data`: one MiB. -/
def BYTE_SIZE : Nat := 1024 * 1024

/-- The target-size computation of `main.rs::generate_data` (`main3.rs` is
identical): an absent `size` parameter gives `BYTE_SIZE`, a present one is
parsed with `parse_size` and any error falls back to `BYTE_SIZE`
(`unwrap_or`). -/
def mainTargetSize (sizeParam : Option (List Char)) : Nat :=
  match sizeParam with
  | some s =>
    match main_parse_size s with
    | .ok n => n
    | .error _ => BYTE_SIZE
  | none => BYTE_SIZE

/-- `OutputFormat` of `processing.rs`. -/
inductive OutputFormat where
  | JSON
  | CSV
deriving DecidableEq

/-- `OutputFormat::from_str`: `"csv"` (case-insensitively) is CSV, everything
else — any other string, malformed or not — is JSON. -/
def OutputFormat.from_str (s : List Char) : OutputFormat :=
  if toLowerStr s = "csv".toList then .CSV else .JSON

/-! ## `main.rs::generate_chunk` and the request pipeline

`generate_data` computes `chunk_size = target_size / num_threads`, then runs
one `generate_chunk` per rayon task.  Each task reads
`start_id = *total_generated.lock()` BEFORE generating and adds its record
count back AFTER, so the start ids depend on how the tasks interleave; the
interleaving is modelled as an explicit schedule of `read`/`add` events. -/

/-- The byte budgets `generate_data` hands its workers: every one of the `w`
workers gets the same `t / w`; the division remainder is assigned to no
worker. -/
def shardBudgets (t w : Nat) : List Nat :=
  List.replicate w (t / w)

/-- The bytes `main.rs::generate_chunk` appends for one record: the
inter-record separator when this is not the very first record of the first
chunk, the opening brace, the eight `"key": value` fields joined by the field
separator, and the line end.  In compact mode the field separator is a bare
comma and the key patterns keep their `": "` (a space after each colon); in
pretty mode the separators carry a newline and a four-space indent. -/
def record_bytes (pools : DataPools) (d : RecordDraws)
    (pretty needsSep : Bool) (curId : Nat) : List Nat :=
  let sep := if pretty then strBytes ",\n    " else strBytes ","
  (if needsSep then (if pretty then strBytes ",\n  " else strBytes ",") else [])
  ++ 123 ::
    ((if pretty then strBytes "\n    " else [])
    ++ strBytes "\"id\": " ++ decimalBytes curId
    ++ sep ++ strBytes "\"name\": \"" ++ pools.names.getD d.nameIdx []
    ++ strBytes "\""
    ++ sep ++ strBytes "\"industry\": \"" ++ pools.industries.getD d.nameIdx []
    ++ strBytes "\""
    ++ sep ++ strBytes "\"revenue\": " ++ d.revenueDisplay
    ++ sep ++ strBytes "\"employees\": " ++ decimalBytes d.employees
    ++ sep ++ strBytes "\"city\": \"" ++ pools.cities.getD d.nameIdx []
    ++ strBytes "\""
    ++ sep ++ strBytes "\"state\": \"" ++ pools.states.getD d.nameIdx []
    ++ strBytes "\""
    ++ sep ++ strBytes "\"country\": \"" ++ pools.countries.getD d.countryIdx []
    ++ strBytes "\""
    ++ (if pretty then strBytes "\n  \x7d" else strBytes "\x7d"))

/-- The `while output.len() < target_chunk_size` loop of
`main.rs::generate_chunk`, with an explicit fuel for structural recursion.
Each iteration appends at least one byte (`record_bytes_length_pos`), so the
loop runs at most `target` times; the wrapper passes `target + 1` fuel and the
fuel-exhausted arm is never reached. -/
def genLoop (pools : DataPools) (draws : Nat → RecordDraws)
    (pretty isFirst : Bool) (target : Nat) :
    Nat → List Nat → Nat → Nat → List Nat × Nat
  | 0, out, count, _ => (out, count)
  | fuel + 1, out, count, curId =>
    if out.length < target then
      genLoop pools draws pretty isFirst target fuel
        (out ++ record_bytes pools (draws count) pretty
          (!(count == 0) || !isFirst) curId)
        (count + 1) (curId + 1)
    else (out, count)

/-- `main.rs::generate_chunk`: the first chunk opens the JSON array (with the
pretty indent when pretty), then the loop fills the buffer past the target and
returns the bytes with the record count. -/
def generate_chunk (pools : DataPools) (draws : Nat → RecordDraws)
    (pretty isFirst : Bool) (startId target : Nat) : List Nat × Nat :=
  let header :=
    if isFirst then (if pretty then strBytes "[\n  " else strBytes "[") else []
  genLoop pools draws pretty isFirst target (target + 1) header 0 startId

/-- One worker's bookkeeping in the schedule model: the `start_id` it read, and
the chunk it contributed. -/
structure ShardSlot where
  startId : Option Nat
  result : Option (List Nat × Nat)

/-- The shared state of `generate_data`: the `total_generated` counter and one
slot per worker. -/
structure RunState where
  total : Nat
  slots : List ShardSlot

/-- A scheduling event: worker `i` reads `total_generated` into its
`start_id`, or worker `i` finishes generating and adds its count back. -/
inductive Ev where
  | read (i : Nat)
  | add (i : Nat)

/-- One schedule step.  On `read i` the worker snapshots the counter; on
`add i` it runs `generate_chunk` from that snapshot (seed `seed + i`, first
worker writes the array header) and adds its record count to the counter. -/
def stepEv (chunkSize : Nat) (pretty : Bool) (pools : DataPools)
    (drawsOf : Nat → Nat → RecordDraws) (seed : Nat)
    (st : RunState) : Ev → RunState
  | .read i =>
    let old := st.slots.getD i ⟨none, none⟩
    { st with slots := st.slots.set i ⟨some st.total, old.result⟩ }
  | .add i =>
    match (st.slots.getD i ⟨none, none⟩).startId with
    | none => st
    | some s =>
      let r := generate_chunk pools (drawsOf (seed + i)) pretty (i == 0)
        s chunkSize
      { total := st.total + r.2, slots := st.slots.set i ⟨some s, some r⟩ }

/-- `main.rs::generate_data` under an explicit schedule: `w` workers, chunk
size `t / w`, the schedule driving the interleaving of counter reads and
writes. -/
def runSched (t w seed : Nat) (pretty : Bool) (pools : DataPools)
    (drawsOf : Nat → Nat → RecordDraws) (sched : List Ev) : RunState :=
  sched.foldl (stepEv (t / w) pretty pools drawsOf seed)
    ⟨0, List.replicate w ⟨none, none⟩⟩

/-- The response body `generate_data` builds: the workers' chunks concatenated
in worker order (rayon's `collect` keeps index order), then the closing
bracket. -/
def bodyBytes (pretty : Bool) (st : RunState) : List Nat :=
  (st.slots.map (fun sl => (sl.result.getD ([], 0)).1)).flatten
  ++ (if pretty then strBytes "\n]\n" else strBytes "]")

/-- Every record id the completed request emitted: worker `i` wrote ids
`startId, startId + 1, …` for as many records as it generated. -/
def allIds (st : RunState) : List Nat :=
  st.slots.flatMap (fun sl =>
    match sl.startId, sl.result with
    | some s, some r => (List.range r.2).map (fun k => s + k)
    | _, _ => [])

set_option maxRecDepth 100000

/-! ## Concrete inputs used by the claims below -/

/-- A concrete record for the encoder claims: plain ASCII fields with no
spaces, quotes, backslashes, newlines or commas. -/
def locA : BusinessLocationRef :=
  { name := strBytes "Acme", industry := strBytes "Tech",
    revenueDtoa := strBytes "5.5", revenueDisplay := strBytes "5.5",
    employees := 42, city := strBytes "Rome", state := strBytes "RM",
    country := strBytes "IT" }

/-- A record whose name holds a double quote (bytes `a " b`), far below the
1024-byte parallel threshold. -/
def locQuote : BusinessLocationRef :=
  { name := [97, 34, 98], industry := strBytes "Tech",
    revenueDtoa := strBytes "5.5", revenueDisplay := strBytes "5.5",
    employees := 42, city := strBytes "Rome", state := strBytes "RM",
    country := strBytes "IT" }

/-- Concrete single-entry pools for the pipeline claims. -/
def poolsA : DataPools :=
  { names := [strBytes "Alpha"], industries := [strBytes "Tech"],
    cities := [strBytes "Rome"], states := [strBytes "Lazio"],
    countries := [strBytes "Italy"] }

/-- A concrete draw stream: every worker and record draws index 0, revenue
rendered `5.5`, 10 employees, country 0. -/
def drawsA : Nat → Nat → RecordDraws :=
  fun _ _ => ⟨0, strBytes "5.5", strBytes "5.5", 10, 0⟩

/-- The sequential schedule: worker 0 reads and adds before worker 1 reads. -/
def schedSeq : List Ev := [.read 0, .add 0, .read 1, .add 1]

/-- A racy schedule rayon can produce: both workers read `total_generated`
before either adds its count back. -/
def schedRace : List Ev := [.read 0, .read 1, .add 0, .add 1]

/-! ## C1 -/

/-- C1: the claim that the JSON encoder emits exactly the eight documented
fields, in order, each value under its own key, fails on the code.
`BusinessLocationRef` has no id at all, and the encoder zips the two numeric
value strings with the first two of the three key patterns: at the concrete
record `locA`, in both pretty and compact mode, no `"employees"` key appears
anywhere in the output, the `"id"` key is followed by the revenue string, the
`"revenue"` key is followed by the employees count, and the output holds NUL
bytes from the 32-byte key padding. -/
theorem c1_json_fields_mispaired :
    ∀ p : Bool,
      ¬ (strBytes "\"employees\"" <:+: write_location_json_simd p locA) ∧
      ((idKeyPat ++ strBytes "5.5") <:+: write_location_json_simd p locA) ∧
      ((revenueKeyPat ++ strBytes "42") <:+: write_location_json_simd p locA) ∧
      0 ∈ write_location_json_simd p locA := by
  decide

/-! ## C2 -/

/-- C2: the claim that a CSV record line has its fields in the order id, name,
industry, revenue, employees, city, state, country with no leading separator
fails on the code: at the concrete record `locA` the emitted line is
`,Acme,Tech,5.5,42,Rome,RM,IT\n` — it begins with a comma (an empty first
column) and contains no id field. -/
theorem c2_csv_line_layout :
    write_location_csv_simd locA = strBytes ",Acme,Tech,5.5,42,Rome,RM,IT\n" ∧
    (write_location_csv_simd locA).head? = some 44 := by
  decide

/-! ## C6 -/

/-- C6: the claim that compact JSON has no whitespace outside field values and
that the pretty flag changes the encoder's output fails on the code:
`write_location_json_simd` produces identical bytes for every value of the
pretty flag (the pretty patterns are computed and dropped by
`JsonPatterns::new`), and its compact output contains a space byte (from the
`": "` inside every key pattern) although no field value of `locA` contains
one. -/
theorem c6_pretty_flag_ignored :
    (∀ (p q : Bool) (loc : BusinessLocationRef),
      write_location_json_simd p loc = write_location_json_simd q loc) ∧
    32 ∈ write_location_json_simd false locA ∧
    locA.name.count 32 = 0 ∧ locA.industry.count 32 = 0 ∧
    locA.revenueDtoa.count 32 = 0 ∧ (decimalBytes locA.employees).count 32 = 0 ∧
    locA.city.count 32 = 0 ∧ locA.state.count 32 = 0 ∧
    locA.country.count 32 = 0 := by
  refine ⟨fun p q loc => rfl, by decide, by decide, by decide, by decide,
    by decide, by decide, by decide, by decide⟩

/-! ## C10 -/

/-- Pools whose industry entry holds a literal comma. -/
def poolsComma : DataPools :=
  { names := [strBytes "Acme"], industries := [strBytes "Food, Drink"],
    cities := [strBytes "Rome"], states := [strBytes "RM"],
    countries := [strBytes "IT"] }

/-- The draw selecting that entry. -/
def drawComma : RecordDraws :=
  ⟨0, strBytes "5.5", strBytes "5.5", 10, 0⟩

/-- C10: the claim that commas are stripped from the industry value before it
reaches the encoder fails on the code: the record construction passes the pool
entry through verbatim, so an entry `Food, Drink` reaches the encoder with its
comma, and the CSV line then holds eight commas instead of seven. -/
theorem c10_industry_comma_not_stripped :
    (mkLocationRef poolsComma drawComma).industry = strBytes "Food, Drink" ∧
    44 ∈ (mkLocationRef poolsComma drawComma).industry ∧
    (write_location_csv_simd (mkLocationRef poolsComma drawComma)).count 44
      = 8 := by
  decide

/-! ## C5 -/

@[simp]
theorem idKeyPat_count92 : idKeyPat.count 92 = 0 := by decide

@[simp]
theorem revenueKeyPat_count92 : revenueKeyPat.count 92 = 0 := by decide

@[simp]
theorem nameKeyPat_count92 : nameKeyPat.count 92 = 0 := by decide

@[simp]
theorem industryKeyPat_count92 : industryKeyPat.count 92 = 0 := by decide

@[simp]
theorem cityKeyPat_count92 : cityKeyPat.count 92 = 0 := by decide

@[simp]
theorem stateKeyPat_count92 : stateKeyPat.count 92 = 0 := by decide

@[simp]
theorem countryKeyPat_count92 : countryKeyPat.count 92 = 0 := by decide

@[simp]
theorem quotedSuffixPat_count92 : quotedSuffixPat.count 92 = 0 := by decide

@[simp]
theorem sepCompactPat_count92 : sepCompactPat.count 92 = 0 := by decide

@[simp]
theorem endCompactPat_count92 : endCompactPat.count 92 = 0 := by decide

/-- C5 as amended: the JSON encoder escapes nothing unless the five string
values together exceed the 1024-byte parallel threshold.  For every record
whose string fields total at most 1024 bytes — every record the closed
dictionary can produce — the encoder takes the sequential path and copies each
field's bytes verbatim: the output holds exactly the backslashes the field
values themselves hold, none inserted in front of a quote, backslash or
newline. -/
theorem c5_short_strings_never_escaped (pretty : Bool)
    (loc : BusinessLocationRef)
    (h : loc.name.length + loc.industry.length + loc.city.length +
      loc.state.length + loc.country.length ≤ PARALLEL_THRESHOLD) :
    (write_location_json_simd pretty loc).count 92 =
      loc.revenueDtoa.count 92 + (decimalBytes loc.employees).count 92 +
      loc.name.count 92 + loc.industry.count 92 + loc.city.count 92 +
      loc.state.count 92 + loc.country.count 92 := by
  unfold write_location_json_simd
  rw [if_neg (by omega :
    ¬ PARALLEL_THRESHOLD < loc.name.length + loc.industry.length +
      loc.city.length + loc.state.length + loc.country.length)]
  rw [ite_self]
  simp [List.count_append, List.count_cons]
  omega

/-- C5 counterexample: at the concrete record `locQuote`, whose name field
holds a double quote, the encoder emits no backslash at all, so the quote is
not escaped. -/
theorem c5_quote_not_escaped :
    locQuote.name.count 34 = 1 ∧
    (write_location_json_simd false locQuote).count 92 = 0 := by
  decide

/-- C5 witness: the amended statement evaluated at `locQuote`. -/
theorem c5_short_strings_witness :
    (write_location_json_simd false locQuote).count 92 =
      locQuote.revenueDtoa.count 92 +
      (decimalBytes locQuote.employees).count 92 +
      locQuote.name.count 92 + locQuote.industry.count 92 +
      locQuote.city.count 92 + locQuote.state.count 92 +
      locQuote.country.count 92 :=
  c5_short_strings_never_escaped false locQuote (by decide)

/-! ## C3 -/

theorem record_bytes_length_pos (pools : DataPools) (d : RecordDraws)
    (pretty needsSep : Bool) (curId : Nat) :
    0 < (record_bytes pools d pretty needsSep curId).length := by
  cases pretty <;> cases needsSep <;> simp [record_bytes]

/-- The loop of `main.rs::generate_chunk` never stops under its byte target:
with fuel at least `target - out.length` the returned buffer reaches the
target (each iteration appends at least one byte). -/
theorem genLoop_length_ge (pools : DataPools) (draws : Nat → RecordDraws)
    (pretty isFirst : Bool) (target : Nat) :
    ∀ (fuel : Nat) (out : List Nat) (count curId : Nat),
      target ≤ out.length + fuel →
      target ≤
        ((genLoop pools draws pretty isFirst target fuel out count curId).1).length := by
  intro fuel
  induction fuel with
  | zero =>
    intro out count curId h
    simpa [genLoop] using h
  | succ n ih =>
    intro out count curId h
    rw [genLoop]
    by_cases hlt : out.length < target
    · rw [if_pos hlt]
      apply ih
      have hpos := record_bytes_length_pos pools (draws count) pretty
        (!(count == 0) || !isFirst) curId
      simp only [List.length_append]
      omega
    · rw [if_neg hlt]
      show target ≤ out.length
      omega

/-- Every `main.rs::generate_chunk` call returns at least its byte target. -/
theorem generate_chunk_length_ge (pools : DataPools)
    (draws : Nat → RecordDraws) (pretty isFirst : Bool)
    (startId target : Nat) :
    target ≤ ((generate_chunk pools draws pretty isFirst startId target).1).length := by
  unfold generate_chunk
  apply genLoop_length_ge
  omega

/-- C3 counterexample: at target 10 bytes and 3 workers the budgets are
`[3, 3, 3]`: they sum to 9, not 10, and the last shard receives no
remainder. -/
theorem c3_budgets_counterexample :
    (shardBudgets 10 3).sum ≠ 10 ∧ (shardBudgets 10 3).getLast? = some 3 := by
  decide

/-- C3 as amended: for every target `t` and worker count `w ≥ 1`, each worker
receives the same budget `t / w`, so the budgets sum to `t - t % w` — the
division remainder is assigned to no shard, and the sum falls short of `t`
whenever `w` does not divide `t` — while every worker's chunk reaches at least
its own budget in bytes, so the delivered record bytes reach at least
`t - t % w` (plus framing). -/
theorem c3_budget_partition (t w : Nat) (h : 1 ≤ w) :
    (shardBudgets t w).sum = t - t % w ∧
    ∀ (pools : DataPools) (draws : Nat → RecordDraws)
      (pretty isFirst : Bool) (startId : Nat),
      t / w ≤
        ((generate_chunk pools draws pretty isFirst startId (t / w)).1).length := by
  constructor
  · have hdm := Nat.div_add_mod t w
    simp [shardBudgets, List.sum_replicate, smul_eq_mul]
    omega
  · intro pools draws pretty isFirst startId
    exact generate_chunk_length_ge pools draws pretty isFirst startId (t / w)

/-- C3 witness: the amended statement at `t = 7`, `w = 2` and the concrete
pools and draws. -/
theorem c3_budget_partition_witness :
    (shardBudgets 7 2).sum = 7 - 7 % 2 ∧
    7 / 2 ≤ ((generate_chunk poolsA (drawsA 0) false true 0 (7 / 2)).1).length :=
  ⟨(c3_budget_partition 7 2 (by decide)).1,
    (c3_budget_partition 7 2 (by decide)).2 poolsA (drawsA 0) false true 0⟩

/-! ## C4 -/

/-- C4: the claim that emitted record ids are always distinct because shard id
ranges never overlap fails on the code: each rayon task reads
`total_generated` before any task has added its count back, so under the
schedule `schedRace` (both workers read before either adds — exactly what
parallel execution produces) both workers of a 4-byte, 2-worker request start
at id 0 and the request emits id 0 twice. -/
theorem c4_duplicate_ids :
    allIds (runSched 4 2 0 false poolsA drawsA schedRace) = [0, 0] ∧
    ¬ (allIds (runSched 4 2 0 false poolsA drawsA schedRace)).Nodup := by
  decide

/-! ## C9 -/

/-- C9: the claim that identical seed and shard count give byte-identical
bodies fails on the code: with everything fixed (seed 0, 2 workers, 4-byte
target, the same pools and draws) the body depends on how the workers'
`total_generated` reads interleave — the sequential schedule emits ids 0 and 1
where the racy schedule emits 0 and 0, and the bodies differ. -/
theorem c9_body_depends_on_schedule :
    bodyBytes false (runSched 4 2 0 false poolsA drawsA schedSeq) ≠
    bodyBytes false (runSched 4 2 0 false poolsA drawsA schedRace) := by
  decide

/-! ## C7 -/

/-- C7: the claim that each unit suffix b/kb/mb/gb/tb maps to its byte
multiplier with `b` mapping to 1 fails on the code: `util.rs::parse_size` maps
the unit `b` to multiplier 8 (so `"1b"` parses to 8 bytes, not 1), and
`main.rs::parse_size` — which does map `b` to 1 — has no `tb` arm at all and
rejects `"1tb"`.  The remaining units behave as documented, case-insensitively,
in `util.rs`. -/
theorem c7_size_unit_multipliers :
    util_parse_size "1b".toList = .ok ⟨8, 8, "b".toList⟩ ∧
    util_parse_size "1kb".toList = .ok ⟨1024, 1024, "kb".toList⟩ ∧
    util_parse_size "3MB".toList = .ok ⟨3 * 1024 ^ 2, 1024 ^ 2, "mb".toList⟩ ∧
    util_parse_size "1gb".toList = .ok ⟨1024 ^ 3, 1024 ^ 3, "gb".toList⟩ ∧
    util_parse_size "1tb".toList = .ok ⟨1024 ^ 4, 1024 ^ 4, "tb".toList⟩ ∧
    main_parse_size "1b".toList = .ok 1 ∧
    main_parse_size "1tb".toList = .error "Invalid unit" := by
  refine ⟨rfl, rfl, rfl, rfl, rfl, rfl, rfl⟩

/-! ## C8 -/

/-- C8: confirmed for the request handler the repository ships
(`main.rs::generate_data`, identically `main3.rs`): an absent size parameter
and every size string `parse_size` rejects fall back to the 1 MiB default, the
computation is total (no request failure), and every format string other than
a case variant of `csv` — malformed or not — maps to JSON, so a format value
is never a request failure either. -/
theorem c8_malformed_params_fall_back :
    mainTargetSize none = BYTE_SIZE ∧
    (∀ (s : List Char) (e : String),
      main_parse_size s = .error e → mainTargetSize (some s) = BYTE_SIZE) ∧
    (∀ s : List Char,
      toLowerStr s ≠ "csv".toList → OutputFormat.from_str s = .JSON) ∧
    (∀ s : List Char,
      OutputFormat.from_str s = .JSON ∨ OutputFormat.from_str s = .CSV) := by
  refine ⟨rfl, ?_, ?_, ?_⟩
  · intro s e he
    simp [mainTargetSize, he]
  · intro s hs
    unfold OutputFormat.from_str
    rw [if_neg hs]
  · intro s
    unfold OutputFormat.from_str
    by_cases hs : toLowerStr s = "csv".toList
    · right
      rw [if_pos hs]
    · left
      rw [if_neg hs]

/-- C8 witness: the fallbacks evaluated at the malformed size string
`"12parsec"` and the malformed format string `"xml"`. -/
theorem c8_fallback_witness :
    mainTargetSize (some "12parsec".toList) = BYTE_SIZE ∧
    OutputFormat.from_str "xml".toList = OutputFormat.JSON :=
  ⟨c8_malformed_params_fall_back.2.1 "12parsec".toList "Invalid unit" rfl,
    c8_malformed_params_fall_back.2.2.1 "xml".toList (by decide)⟩
